import Mathlib

/-!
Verification development for the container-provisioning server
(`packages/server`): SSH key lifecycle, build-recipe synthesis, host port
allocation, image build and the provisioning pipeline.

TypeScript strings are modelled as `List Char` (`Text`); a JS template
literal becomes the `.data` of the corresponding Lean string literal, and
JS string concatenation becomes list append.  Newline handling (the
`/^(CMD|ENTRYPOINT).*$/gm` replace, line counting) goes through `splitNl`,
the split of a text at newline characters, which matches the semantics of
a multiline regex over the text.  The filesystem used by the key manager
is a path-to-content association list; `ssh-keygen` is modelled by a
`KeygenOutput` value (the material the external tool would write).
Container-engine calls are recorded as `PipeEvent`s and their outcomes are
supplied by a `PipelineEnv`.
-/

namespace AgentContainers

set_option maxRecDepth 20000

/-- A TypeScript string, modelled as its list of characters. -/
abbrev Text := List Char

/-- Split a text at newline characters.  A text with `k` newlines yields
`k+1` segments; segments contain no newline. -/
def splitNl : Text → List Text
  | [] => [[]]
  | c :: cs =>
    if c = '\n' then [] :: splitNl cs
    else
      match splitNl cs with
      | [] => [[c]]
      | l :: ls => (c :: l) :: ls

/-- Join segments with newline characters (inverse of `splitNl`). -/
def joinNl : List Text → Text
  | [] => []
  | [l] => l
  | l :: ls => l ++ '\n' :: joinNl ls

/-- Substring test, modelling `String.prototype.includes`. -/
def hasSubstring (s pat : Text) : Bool :=
  match s with
  | [] => pat.isEmpty
  | _ :: cs => pat.isPrefixOf s || hasSubstring cs pat

/-- Whitespace stripped by `String.prototype.trim` (the cases relevant to
key material). -/
def isJsWhitespace (c : Char) : Bool :=
  c = ' ' || c = '\t' || c = '\n' || c = '\r'

/-- `String.prototype.trim`. -/
def trimText (t : Text) : Text :=
  ((t.dropWhile isJsWhitespace).reverse.dropWhile isJsWhitespace).reverse

/-! ## Recipe synthesizer (`services/container-builder.ts`) -/

/-- A line matched by the `/^(CMD|ENTRYPOINT).*$/gm` pattern of
`injectSshIntoDockerfile`: the line starts with `CMD` or `ENTRYPOINT`. -/
def isForegroundDirective (l : Text) : Bool :=
  ("CMD".data).isPrefixOf l || ("ENTRYPOINT".data).isPrefixOf l

/-- `dockerfile.replace(/^(CMD|ENTRYPOINT).*$/gm, '')`: every matched line
is replaced by the empty line (the newline separators remain). -/
def stripForegroundDirectives (t : Text) : Text :=
  joinNl ((splitNl t).map fun l => if isForegroundDirective l then [] else l)

/-- The block `injectSshIntoDockerfile` appends when the dockerfile already
contains `openssh-server` (template literal of lines 141-144). -/
def sshTrustBlock (publicKey : Text) : Text :=
  "\nRUN mkdir -p /root/.ssh && chmod 700 /root/.ssh\nRUN echo \x27".data ++
    publicKey ++
    "\x27 > /root/.ssh/authorized_keys && chmod 600 /root/.ssh/authorized_keys\n".data

/-- The `sshSetup` template literal of `injectSshIntoDockerfile`
(lines 148-159). -/
def sshSetupBlock (publicKey : Text) : Text :=
  "\nRUN apt-get update && apt-get install -y openssh-server \\\n    && mkdir -p /var/run/sshd /root/.ssh \\\n    && chmod 700 /root/.ssh \\\n    && sed -i \x27s/#PermitRootLogin.*/PermitRootLogin prohibit-password/\x27 /etc/ssh/sshd_config \\\n    && sed -i \x27s/#PubkeyAuthentication.*/PubkeyAuthentication yes/\x27 /etc/ssh/sshd_config \\\n    && rm -rf /var/lib/apt/lists/*\n\nRUN echo \x27".data ++
    publicKey ++
    "\x27 > /root/.ssh/authorized_keys && chmod 600 /root/.ssh/authorized_keys\n\nEXPOSE 22\n".data

/-- The `'\nCMD ["/usr/sbin/sshd", "-D"]\n'` text appended as the last step
of `injectSshIntoDockerfile`. -/
def sshdCmdTail : Text := "\nCMD [\"/usr/sbin/sshd\", \"-D\"]\n".data

/-- `injectSshIntoDockerfile(dockerfile, publicKey)`: if the dockerfile
already references `openssh-server`, only the trust block is appended;
otherwise existing `CMD`/`ENTRYPOINT` lines are stripped and the full SSH
setup plus a final sshd `CMD` is appended. -/
def injectSshIntoDockerfile (dockerfile publicKey : Text) : Text :=
  if hasSubstring dockerfile ("openssh-server".data) then
    dockerfile ++ sshTrustBlock publicKey
  else
    stripForegroundDirectives dockerfile ++ sshSetupBlock publicKey ++ sshdCmdTail

/-- `createSshDockerfile(baseImage, publicKey)` (lines 114-135): the
self-contained recipe template built from a base image. -/
def createSshDockerfile (baseImage publicKey : Text) : Text :=
  "FROM ".data ++ baseImage ++
    "\n\nRUN apt-get update && apt-get install -y \\\n    openssh-server \\\n    sudo \\\n    curl \\\n    git \\\n    vim \\\n    && rm -rf /var/lib/apt/lists/* \\\n    && mkdir -p /var/run/sshd /root/.ssh \\\n    && chmod 700 /root/.ssh \\\n    && sed -i \x27s/#PermitRootLogin.*/PermitRootLogin prohibit-password/\x27 /etc/ssh/sshd_config \\\n    && sed -i \x27s/#PubkeyAuthentication.*/PubkeyAuthentication yes/\x27 /etc/ssh/sshd_config\n\nRUN echo \x27".data ++
    publicKey ++
    "\x27 > /root/.ssh/authorized_keys \\\n    && chmod 600 /root/.ssh/authorized_keys\n\nEXPOSE 22\nCMD [\"/usr/sbin/sshd\", \"-D\"]\n".data

/-- Named lines of the appended blocks, used to state what the synthesized
recipes look like line by line. -/
def trustMkdirLine : Text := "RUN mkdir -p /root/.ssh && chmod 700 /root/.ssh".data

/-- The `RUN echo '<key>' > /root/.ssh/authorized_keys && chmod 600 ...`
line shared by `sshTrustBlock` and `sshSetupBlock`. -/
def echoKeyLine (publicKey : Text) : Text :=
  "RUN echo \x27".data ++ publicKey ++
    "\x27 > /root/.ssh/authorized_keys && chmod 600 /root/.ssh/authorized_keys".data

def setupLine1 : Text := "RUN apt-get update && apt-get install -y openssh-server \\".data

def setupLine2 : Text := "    && mkdir -p /var/run/sshd /root/.ssh \\".data

def setupLine3 : Text := "    && chmod 700 /root/.ssh \\".data

def setupLine4 : Text :=
  "    && sed -i \x27s/#PermitRootLogin.*/PermitRootLogin prohibit-password/\x27 /etc/ssh/sshd_config \\".data

def setupLine5 : Text :=
  "    && sed -i \x27s/#PubkeyAuthentication.*/PubkeyAuthentication yes/\x27 /etc/ssh/sshd_config \\".data

def setupLine6 : Text := "    && rm -rf /var/lib/apt/lists/*".data

def exposeLine : Text := "EXPOSE 22".data

/-- The injected foreground directive `CMD ["/usr/sbin/sshd", "-D"]`. -/
def sshdCmdLine : Text := "CMD [\"/usr/sbin/sshd\", \"-D\"]".data

/-! ## Port allocator (`utils/port.ts`) -/

/-- The scan loop of `findAvailableSshPort`: `for (port = start; port <
start + fuel; port++)`, skipping ports in the engine-reported used set and
returning the first remaining port whose loopback bind probe succeeds. -/
def scanSshPorts (usedPorts bindable : Nat → Bool) : Nat → Nat → Option Nat
  | _, 0 => none
  | port, fuel + 1 =>
    if usedPorts port then scanSshPorts usedPorts bindable (port + 1) fuel
    else if bindable port then some port
    else scanSshPorts usedPorts bindable (port + 1) fuel

/-- `findAvailableSshPort()`: scan ports `2222` to `2222 + 100`
(exclusive) in ascending order; `none` models the thrown
`'No available SSH port found'` (`PortExhausted`).  `usedPorts` is the set
built by `getUsedContainerPorts` from the engine's container list;
`bindable` is the outcome of the `isPortAvailable` loopback bind probe. -/
def findAvailableSshPort (usedPorts bindable : Nat → Bool) : Option Nat :=
  scanSshPorts usedPorts bindable 2222 100

/-! ## Key manager (`services/container-builder.ts`, filesystem model) -/

/-- The key store: one content per path, as an association list. -/
abbrev FileSystem := List (String × Text)

def readF (fs : FileSystem) (p : String) : Option Text :=
  (fs.find? (fun e => e.1 == p)).map (fun e => e.2)

def removeF (fs : FileSystem) (p : String) : FileSystem :=
  fs.filter (fun e => e.1 != p)

def writeF (fs : FileSystem) (p : String) (c : Text) : FileSystem :=
  (p, c) :: removeF fs p

/-- `SSH_KEYS_DIR` (`<project root>/data/ssh-keys`). -/
def sshKeysDir : String := "data/ssh-keys"

/-- `getPrivateKeyPath(containerName)`: `join(SSH_KEYS_DIR, name + '.pem')`,
a pure path computation. -/
def getPrivateKeyPath (containerName : String) : String :=
  sshKeysDir ++ "/" ++ containerName ++ ".pem"

/-- Errors of the key manager: `keyNotFound` models the `ENOENT` rejection
of `readFile` on a missing key file. -/
inductive KeyError where
  | keyNotFound
  | keyGenerationFailed
deriving DecidableEq

/-- The material `ssh-keygen` writes on one invocation: the private key
file and the `.pub` file contents. -/
structure KeygenOutput where
  priv : Text
  pub : Text
deriving DecidableEq

/-- The `.pub` path `ssh-keygen` writes next to the private key. -/
def pubKeyPath (containerName : String) : String :=
  getPrivateKeyPath containerName ++ ".pub"

/-- The key store after `generateSshKeyPair(name)` has removed any stale
key files and `ssh-keygen` has written the fresh pair (the `fs4` of the
source, before the `.pub` cleanup). -/
def keygenWrittenStore (gen : KeygenOutput) (name : String) (fs : FileSystem) : FileSystem :=
  writeF (writeF (removeF (removeF fs (getPrivateKeyPath name)) (pubKeyPath name))
    (getPrivateKeyPath name) gen.priv) (pubKeyPath name) gen.pub

/-- `generateSshKeyPair(name)`: remove any stale key files, run
`ssh-keygen` (which writes both files), read both back, delete the `.pub`
file, and return `{ publicKey: publicKey.trim(), privateKey }`. -/
def generateSshKeyPair (gen : KeygenOutput) (name : String) (fs : FileSystem) :
    FileSystem × Except KeyError (Text × Text) :=
  match readF (keygenWrittenStore gen name fs) (getPrivateKeyPath name),
        readF (keygenWrittenStore gen name fs) (pubKeyPath name) with
  | some privateKey, some publicKey =>
      (removeF (keygenWrittenStore gen name fs) (pubKeyPath name),
       .ok (trimText publicKey, privateKey))
  | _, _ => (keygenWrittenStore gen name fs, .error .keyGenerationFailed)

/-- `getPrivateKey(containerName)`: read the private key file; missing
file rejects (`KeyNotFound`). -/
def getPrivateKey (fs : FileSystem) (containerName : String) : Except KeyError Text :=
  match readF fs (getPrivateKeyPath containerName) with
  | some content => .ok content
  | none => .error .keyNotFound

/-- `cleanupContainerKeys(containerName)`: `rm` the key file, ignoring a
missing-file error (total removal). -/
def cleanupContainerKeys (fs : FileSystem) (containerName : String) : FileSystem :=
  removeF fs (getPrivateKeyPath containerName)

/-! ## Build orchestrator (`services/docker.ts`, `buildImage`) -/

/-- What the container engine reports for one build submission:
`transportError` is an error passed to the `docker.buildImage` callback,
`noStream` a missing progress stream, `streamError` an error reported by
`followProgress`, and `success` a stream that terminated without error. -/
inductive BuildEngineOutcome where
  | transportError (msg : String)
  | noStream
  | streamError (msg : String)
  | success
deriving DecidableEq

/-- `buildImage(dockerfile, tag)`: resolves only when `followProgress`
reports the stream terminated without error; every other outcome rejects
with the underlying message (`BuildFailed`). -/
def buildImage : BuildEngineOutcome → Except String Unit
  | .transportError msg => .error msg
  | .noStream => .error "No stream returned from buildImage"
  | .streamError msg => .error msg
  | .success => .ok ()

/-! ## Provisioning pipeline (`buildAndCreateContainer`) -/

/-- The descriptor `getContainer` returns after inspection. -/
structure ContainerInfo where
  id : String
  name : String
  image : String
  sshPort : Option Nat
deriving DecidableEq

/-- The pipeline's successful result. -/
structure ContainerBuildResult where
  container : ContainerInfo
  privateKeyPath : String
deriving DecidableEq

/-- A provisioning request (`CreateContainerRequest`).  `image` and
`dockerfile` are optional strings; JS truthiness of such a field is
"present and non-empty" (`optTruthy`). -/
structure CreateContainerRequest where
  name : String
  image : Option Text := none
  dockerfile : Option Text := none
  volumes : List (String × String) := []
  env : List (String × String) := []
deriving DecidableEq

/-- JS truthiness of an optional string field. -/
def optTruthy : Option Text → Bool
  | none => false
  | some s => !s.isEmpty

/-- Terminal errors of one provisioning attempt.  `invalidRequest` is the
thrown `'Either image or dockerfile must be provided'`; `portExhausted`
the thrown `'No available SSH port found'`; `inspectFailed` the thrown
`'Failed to get container info after creation'`; the remaining
constructors carry the engine's message. -/
inductive PipeError where
  | invalidRequest
  | buildFailed (msg : String)
  | portExhausted
  | createFailed (msg : String)
  | startFailed (msg : String)
  | inspectFailed
deriving DecidableEq

/-- The externally observable steps of one provisioning attempt, in the
order they are performed.  `keyGen` is the `ssh-keygen` invocation (not a
container-engine call); the remaining events are container-engine calls
(`engineListContainers` is issued by `getUsedContainerPorts` inside
`findAvailableSshPort`). -/
inductive PipeEvent where
  | keyGen (name : String)
  | engineBuild (recipe : Text) (tag : String)
  | engineListContainers
  | engineCreate (name : String) (image : String) (sshPort : Nat)
  | engineStart
  | engineInspect
deriving DecidableEq

/-- The step a `PipeEvent` belongs to, forgetting its payload. -/
inductive PipeStepKind where
  | keyGen
  | build
  | listContainers
  | create
  | start
  | inspect
deriving DecidableEq

def PipeEvent.kind : PipeEvent → PipeStepKind
  | .keyGen _ => .keyGen
  | .engineBuild _ _ => .build
  | .engineListContainers => .listContainers
  | .engineCreate _ _ _ => .create
  | .engineStart => .start
  | .engineInspect => .inspect

/-- Whether an event is a call into the container engine. -/
def PipeEvent.isEngineCall : PipeEvent → Bool
  | .keyGen _ => false
  | _ => true

/-- The canonical order of the pipeline's steps. -/
def stepOrder : List PipeStepKind :=
  [.keyGen, .build, .listContainers, .create, .start, .inspect]

/-- Outcomes of the external operations one provisioning attempt performs,
in the order the pipeline would consume them. -/
structure PipelineEnv where
  keygen : KeygenOutput
  buildOutcome : BuildEngineOutcome
  usedPorts : Nat → Bool
  bindable : Nat → Bool
  createOutcome : Except String Unit
  startOutcome : Except String Unit
  inspectResult : Option ContainerInfo

/-- The part of `buildAndCreateContainer` after a recipe has been chosen:
build the image, allocate an SSH port, create, start and inspect the
container.  Returns the events performed (without the leading `keyGen`)
and the outcome. -/
def pipelineAfterRecipe (env : PipelineEnv) (req : CreateContainerRequest)
    (recipe : Text) (privateKeyPath : String) :
    List PipeEvent × Except PipeError ContainerBuildResult :=
  let imageName := "acm-" ++ req.name ++ ":latest"
  match buildImage env.buildOutcome with
  | .error e => ([.engineBuild recipe imageName], .error (.buildFailed e))
  | .ok _ =>
    match findAvailableSshPort env.usedPorts env.bindable with
    | none =>
        ([.engineBuild recipe imageName, .engineListContainers], .error .portExhausted)
    | some sshPort =>
      match env.createOutcome with
      | .error e =>
          ([.engineBuild recipe imageName, .engineListContainers,
            .engineCreate req.name imageName sshPort], .error (.createFailed e))
      | .ok _ =>
        match env.startOutcome with
        | .error e =>
            ([.engineBuild recipe imageName, .engineListContainers,
              .engineCreate req.name imageName sshPort, .engineStart],
             .error (.startFailed e))
        | .ok _ =>
          match env.inspectResult with
          | none =>
              ([.engineBuild recipe imageName, .engineListContainers,
                .engineCreate req.name imageName sshPort, .engineStart,
                .engineInspect], .error .inspectFailed)
          | some info =>
              ([.engineBuild recipe imageName, .engineListContainers,
                .engineCreate req.name imageName sshPort, .engineStart,
                .engineInspect],
               .ok { container := info, privateKeyPath := privateKeyPath })

/-- Record the leading `ssh-keygen` step in front of the pipeline rest. -/
def withKeyGen (name : String)
    (r : List PipeEvent × Except PipeError ContainerBuildResult) :
    List PipeEvent × Except PipeError ContainerBuildResult :=
  (.keyGen name :: r.1, r.2)

/-- `buildAndCreateContainer(request)` (lines 19-69): `generateSshKeyPair`
runs first (its trimmed public key feeds recipe synthesis), then the
`dockerfile` / `image` branch chooses the recipe — the thrown
`'Either image or dockerfile must be provided'` occurs only when both are
absent or empty — and the rest of the pipeline runs. -/
def buildAndCreateContainer (env : PipelineEnv) (req : CreateContainerRequest) :
    List PipeEvent × Except PipeError ContainerBuildResult :=
  if optTruthy req.dockerfile then
    withKeyGen req.name (pipelineAfterRecipe env req
      (injectSshIntoDockerfile (req.dockerfile.getD []) (trimText env.keygen.pub))
      (getPrivateKeyPath req.name))
  else if optTruthy req.image then
    withKeyGen req.name (pipelineAfterRecipe env req
      (createSshDockerfile (req.image.getD []) (trimText env.keygen.pub))
      (getPrivateKeyPath req.name))
  else
    ([.keyGen req.name], .error .invalidRequest)

/-! ## Lemmas about the text model -/

theorem splitNl_ne_nil (t : Text) : splitNl t ≠ [] := by
  induction t with
  | nil => simp [splitNl]
  | cons c cs ih =>
    simp only [splitNl]
    split
    · simp
    · split <;> simp_all

theorem splitNl_cons_of_ne {c : Char} (hc : ¬ c = '\n') (cs : Text) :
    splitNl (c :: cs) = (c :: (splitNl cs).headD []) :: (splitNl cs).tail := by
  simp only [splitNl, if_neg hc]
  rcases h : splitNl cs with _ | ⟨l, ls⟩
  · exact absurd h (splitNl_ne_nil cs)
  · rfl

theorem splitNl_no_newline {t : Text} (h : '\n' ∉ t) : splitNl t = [t] := by
  induction t with
  | nil => rfl
  | cons c cs ih =>
    have hc : ¬ c = '\n' := fun hh => h (hh ▸ List.mem_cons_self c cs)
    have hcs : '\n' ∉ cs := fun hh => h (List.mem_cons_of_mem c hh)
    rw [splitNl_cons_of_ne hc, ih hcs]
    rfl

/-- Decomposition of `splitNl` over an append: the last segment of `a`
merges with the first segment of `b`. -/
theorem splitNl_append (a b : Text) :
    ∃ front last, splitNl a = front ++ [last] ∧
      splitNl (a ++ b) =
        front ++ (last ++ (splitNl b).headD []) :: (splitNl b).tail := by
  induction a with
  | nil =>
    refine ⟨[], [], rfl, ?_⟩
    rcases hb : splitNl b with _ | ⟨l, ls⟩
    · exact absurd hb (splitNl_ne_nil b)
    · simp [hb]
  | cons c cs ih =>
    obtain ⟨front, last, h1, h2⟩ := ih
    by_cases hc : c = '\n'
    · subst hc
      exact ⟨[] :: front, last, by simp [splitNl, h1], by simp [splitNl, h2]⟩
    · have hstep : splitNl (c :: cs ++ b) =
          (c :: (splitNl (cs ++ b)).headD []) :: (splitNl (cs ++ b)).tail := by
        rw [List.cons_append]
        exact splitNl_cons_of_ne hc (cs ++ b)
      cases front with
      | nil =>
        refine ⟨[], c :: last, ?_, ?_⟩
        · rw [splitNl_cons_of_ne hc]
          simp only [List.nil_append] at h1
          rw [h1]
          rfl
        · rw [hstep, h2]
          simp
      | cons f0 fr =>
        refine ⟨(c :: f0) :: fr, last, ?_, ?_⟩
        · rw [splitNl_cons_of_ne hc, h1]
          simp
        · rw [hstep, h2]
          simp

/-- Splitting at an explicit newline splits the two sides independently. -/
theorem splitNl_append_newline (a b : Text) :
    splitNl (a ++ '\n' :: b) = splitNl a ++ splitNl b := by
  obtain ⟨front, last, h1, h2⟩ := splitNl_append a ('\n' :: b)
  rw [h2, h1]
  simp [splitNl]

/-- A newline-free line followed by an explicit newline is one segment. -/
theorem splitNl_line_cons {l : Text} (hl : '\n' ∉ l) (rest : Text) :
    splitNl (l ++ '\n' :: rest) = l :: splitNl rest := by
  rw [splitNl_append_newline, splitNl_no_newline hl]
  rfl

theorem splitNl_joinNl {ls : List Text} (hne : ls ≠ [])
    (h : ∀ l ∈ ls, '\n' ∉ l) : splitNl (joinNl ls) = ls := by
  induction ls with
  | nil => exact absurd rfl hne
  | cons l ls ih =>
    cases ls with
    | nil => exact splitNl_no_newline (h l (by simp))
    | cons l2 ls2 =>
      have : joinNl (l :: l2 :: ls2) = l ++ '\n' :: joinNl (l2 :: ls2) := rfl
      rw [this, splitNl_line_cons (h l (by simp))]
      rw [ih (by simp) (fun x hx => h x (List.mem_cons_of_mem l hx))]

/-- Every segment produced by `splitNl` is newline-free. -/
theorem no_newline_of_mem_splitNl {t : Text} {l : Text}
    (hl : l ∈ splitNl t) : '\n' ∉ l := by
  induction t generalizing l with
  | nil =>
    simp only [splitNl, List.mem_singleton] at hl
    subst hl
    simp
  | cons c cs ih =>
    by_cases hc : c = '\n'
    · subst hc
      rw [show splitNl ('\n' :: cs) = [] :: splitNl cs from by simp [splitNl]] at hl
      rcases List.mem_cons.mp hl with h1 | h1
      · subst h1; simp
      · exact ih h1
    · rcases hh : splitNl cs with _ | ⟨l0, ls0⟩
      · exact absurd hh (splitNl_ne_nil cs)
      · have hmem0 : l0 ∈ splitNl cs := by rw [hh]; exact List.mem_cons_self l0 ls0
        rw [splitNl_cons_of_ne hc, hh] at hl
        simp only [List.headD_cons, List.tail_cons] at hl
        rcases List.mem_cons.mp hl with h1 | h1
        · subst h1
          intro hmem
          rcases List.mem_cons.mp hmem with h2 | h2
          · exact hc h2.symm
          · exact ih hmem0 h2
        · have : l ∈ splitNl cs := by rw [hh]; exact List.mem_cons_of_mem l0 h1
          exact ih this

/-- If the right part starts with an empty segment, an append splits
cleanly: `a`'s segments stay intact. -/
theorem splitNl_append_head_nil (a b : Text)
    (hb : (splitNl b).headD [] = []) :
    splitNl (a ++ b) = splitNl a ++ (splitNl b).tail := by
  obtain ⟨front, last, h1, h2⟩ := splitNl_append a b
  rw [h2, hb, h1]
  simp

theorem splitNl_newline_cons (t : Text) : splitNl ('\n' :: t) = [] :: splitNl t := by
  simp [splitNl]

/-! ## Line structure of the synthesized recipes -/

theorem sshTrustBlock_decomp (k : Text) :
    sshTrustBlock k =
      '\n' :: (trustMkdirLine ++ '\n' :: (echoKeyLine k ++ '\n' :: ([] : Text))) := by
  have e1 : ("\nRUN mkdir -p /root/.ssh && chmod 700 /root/.ssh\nRUN echo \x27".data : Text) =
      '\n' :: (trustMkdirLine ++ '\n' :: "RUN echo \x27".data) := by decide
  have e2 :
      ("\x27 > /root/.ssh/authorized_keys && chmod 600 /root/.ssh/authorized_keys\n".data : Text) =
      "\x27 > /root/.ssh/authorized_keys && chmod 600 /root/.ssh/authorized_keys".data ++
        '\n' :: ([] : Text) := by decide
  rw [sshTrustBlock, e1, e2, echoKeyLine]
  simp [List.append_assoc]

theorem no_newline_echoKeyLine {k : Text} (hk : '\n' ∉ k) : '\n' ∉ echoKeyLine k := by
  simp only [echoKeyLine, List.append_assoc, List.mem_append, not_or]
  refine ⟨by decide, hk, by decide⟩

theorem splitNl_sshTrustBlock {k : Text} (hk : '\n' ∉ k) :
    splitNl (sshTrustBlock k) = [[], trustMkdirLine, echoKeyLine k, []] := by
  rw [sshTrustBlock_decomp, splitNl_newline_cons,
    splitNl_line_cons (by decide), splitNl_line_cons (no_newline_echoKeyLine hk)]
  rfl

set_option maxRecDepth 10000 in
theorem sshSetup_decomp (k : Text) :
    sshSetupBlock k ++ sshdCmdTail =
      '\n' :: (setupLine1 ++ '\n' :: (setupLine2 ++ '\n' :: (setupLine3 ++ '\n' ::
        (setupLine4 ++ '\n' :: (setupLine5 ++ '\n' :: (setupLine6 ++ '\n' ::
        ('\n' :: (echoKeyLine k ++ '\n' :: ('\n' :: (exposeLine ++ '\n' ::
        ('\n' :: (sshdCmdLine ++ '\n' :: ([] : Text))))))))))))) := by
  have e1 : ("\nRUN apt-get update && apt-get install -y openssh-server \\\n    && mkdir -p /var/run/sshd /root/.ssh \\\n    && chmod 700 /root/.ssh \\\n    && sed -i \x27s/#PermitRootLogin.*/PermitRootLogin prohibit-password/\x27 /etc/ssh/sshd_config \\\n    && sed -i \x27s/#PubkeyAuthentication.*/PubkeyAuthentication yes/\x27 /etc/ssh/sshd_config \\\n    && rm -rf /var/lib/apt/lists/*\n\nRUN echo \x27".data : Text) =
      '\n' :: (setupLine1 ++ '\n' :: (setupLine2 ++ '\n' :: (setupLine3 ++ '\n' ::
        (setupLine4 ++ '\n' :: (setupLine5 ++ '\n' :: (setupLine6 ++ '\n' ::
        ('\n' :: "RUN echo \x27".data))))))) := by decide
  have e2 :
      ("\x27 > /root/.ssh/authorized_keys && chmod 600 /root/.ssh/authorized_keys\n\nEXPOSE 22\n".data : Text) =
      "\x27 > /root/.ssh/authorized_keys && chmod 600 /root/.ssh/authorized_keys".data ++
        '\n' :: ('\n' :: (exposeLine ++ '\n' :: ([] : Text))) := by decide
  have e3 : (sshdCmdTail : Text) = '\n' :: (sshdCmdLine ++ '\n' :: ([] : Text)) := by decide
  rw [sshSetupBlock, e1, e2, e3, echoKeyLine]
  simp [List.append_assoc]

theorem splitNl_setup {k : Text} (hk : '\n' ∉ k) :
    splitNl (sshSetupBlock k ++ sshdCmdTail) =
      [[], setupLine1, setupLine2, setupLine3, setupLine4, setupLine5, setupLine6,
       [], echoKeyLine k, [], exposeLine, [], sshdCmdLine, []] := by
  rw [sshSetup_decomp, splitNl_newline_cons,
    splitNl_line_cons (by decide), splitNl_line_cons (by decide),
    splitNl_line_cons (by decide), splitNl_line_cons (by decide),
    splitNl_line_cons (by decide), splitNl_line_cons (by decide),
    splitNl_newline_cons, splitNl_line_cons (no_newline_echoKeyLine hk),
    splitNl_newline_cons, splitNl_line_cons (by decide),
    splitNl_newline_cons, splitNl_line_cons (by decide)]
  rfl

/-- The lines of `injectSshIntoDockerfile` in the no-existing-SSH case:
every input line survives (emptied when it was a foreground directive),
followed by the full setup block and the final sshd `CMD`. -/
theorem splitNl_inject_nossh {d k : Text} (hk : '\n' ∉ k)
    (hno : hasSubstring d ("openssh-server".data) = false) :
    splitNl (injectSshIntoDockerfile d k) =
      (splitNl d).map (fun l => if isForegroundDirective l then [] else l) ++
      [setupLine1, setupLine2, setupLine3, setupLine4, setupLine5, setupLine6,
       [], echoKeyLine k, [], exposeLine, [], sshdCmdLine, []] := by
  have hlines : ∀ l ∈ (splitNl d).map (fun l => if isForegroundDirective l then [] else l),
      '\n' ∉ l := by
    intro l hl
    rcases List.mem_map.mp hl with ⟨x, hx, hfx⟩
    by_cases hfg : isForegroundDirective x
    · rw [← hfx]; simp [hfg]
    · rw [← hfx]
      simpa [hfg] using no_newline_of_mem_splitNl hx
  have hne : (splitNl d).map (fun l => if isForegroundDirective l then [] else l) ≠ [] := by
    simpa using splitNl_ne_nil d
  have hstrip : splitNl (stripForegroundDirectives d) =
      (splitNl d).map (fun l => if isForegroundDirective l then [] else l) :=
    splitNl_joinNl hne hlines
  rw [injectSshIntoDockerfile, if_neg (by simp [hno]), List.append_assoc,
    splitNl_append_head_nil _ _ (by rw [splitNl_setup hk]; rfl), hstrip, splitNl_setup hk]
  rfl

/-- The lines of `injectSshIntoDockerfile` when the dockerfile already
references `openssh-server`: the input lines unchanged, then the trust
block. -/
theorem splitNl_inject_ssh {d k : Text} (hk : '\n' ∉ k)
    (hyes : hasSubstring d ("openssh-server".data) = true) :
    splitNl (injectSshIntoDockerfile d k) =
      splitNl d ++ [trustMkdirLine, echoKeyLine k, []] := by
  rw [injectSshIntoDockerfile, if_pos (by simp [hyes]),
    splitNl_append_head_nil _ _ (by rw [splitNl_sshTrustBlock hk]; rfl),
    splitNl_sshTrustBlock hk]
  rfl

theorem isForegroundDirective_cons_ne {c : Char} (t : Text) (hC : ¬ c = 'C')
    (hE : ¬ c = 'E') : isForegroundDirective (c :: t) = false := by
  have hC' : (('C' : Char) == c) = false := by
    simp only [beq_eq_false_iff_ne, ne_eq]
    exact fun h => hC h.symm
  have hE' : (('E' : Char) == c) = false := by
    simp only [beq_eq_false_iff_ne, ne_eq]
    exact fun h => hE h.symm
  have h1 : ("CMD".data : Text) = 'C' :: "MD".data := rfl
  have h2 : ("ENTRYPOINT".data : Text) = 'E' :: "NTRYPOINT".data := rfl
  simp only [isForegroundDirective, h1, h2, List.isPrefixOf, hC', hE',
    Bool.false_and, Bool.or_self]

theorem isForegroundDirective_echoKeyLine (k : Text) :
    isForegroundDirective (echoKeyLine k) = false := by
  have h : echoKeyLine k =
      'R' :: ("UN echo \x27".data ++ k ++
        "\x27 > /root/.ssh/authorized_keys && chmod 600 /root/.ssh/authorized_keys".data) := by
    rw [echoKeyLine]
    rfl
  rw [h]
  exact isForegroundDirective_cons_ne _ (by decide) (by decide)

/-- Stripping leaves no foreground directive among the original lines. -/
theorem filter_fg_strip (d : Text) :
    ((splitNl d).map (fun l => if isForegroundDirective l then [] else l)).filter
      isForegroundDirective = [] := by
  rw [List.filter_eq_nil_iff]
  intro a ha
  rcases List.mem_map.mp ha with ⟨x, hx, hfx⟩
  by_cases hfg : isForegroundDirective x = true
  · rw [← hfx, if_pos hfg]
    decide
  · rw [← hfx, if_neg hfg]
    exact hfg

/-! ## Claim C2: foreground-process directives in `synthesizeFromUserRecipe` -/

/-- C2 (counterexample): the claim states that for every user recipe the
output of `injectSshIntoDockerfile` contains exactly one
foreground-process directive.  For a recipe that already references
`openssh-server` and carries two foreground directives, the output keeps
both (and gains no sshd `CMD`): it has two foreground directives, not
one. -/
theorem c2_counterexample :
    ((splitNl (injectSshIntoDockerfile
        "RUN apt-get install -y openssh-server\nCMD [\"/bin/bash\"]\nENTRYPOINT [\"/init\"]".data
        "ssh-rsa AAAB3 test".data)).countP isForegroundDirective) = 2 := by
  decide

/-- C2 (amended): for every user recipe that does **not** already
reference `openssh-server` and every newline-free public key, the output
of `injectSshIntoDockerfile` has exactly one foreground-process directive,
namely the injected sshd `CMD`; all pre-existing `CMD`/`ENTRYPOINT` lines
are removed, however many there were.  (For recipes already referencing
`openssh-server` the directives are left untouched, see the
counterexample.) -/
theorem c2_exactly_one_foreground {d k : Text} (hk : '\n' ∉ k)
    (hno : hasSubstring d ("openssh-server".data) = false) :
    (splitNl (injectSshIntoDockerfile d k)).filter isForegroundDirective =
      [sshdCmdLine] := by
  rw [splitNl_inject_nossh hk hno, List.filter_append, filter_fg_strip]
  simp only [List.nil_append]
  simp +decide [List.filter_cons, isForegroundDirective_echoKeyLine k]

/-- C2 (witness): the amended theorem applied to a concrete recipe with
two foreground directives and no SSH reference. -/
theorem c2_witness :
    (splitNl (injectSshIntoDockerfile
      "FROM ubuntu:24.04\nCMD [\"/bin/bash\"]\nENTRYPOINT [\"/init\"]".data
      "ssh-rsa AAAB3 test".data)).filter isForegroundDirective = [sshdCmdLine] :=
  c2_exactly_one_foreground (by decide) (by decide)

/-! ## Substring occurrences -/

theorem isPrefixOf_iff_append {a s : Text} :
    a.isPrefixOf s = true ↔ ∃ t, a ++ t = s := by
  induction a generalizing s with
  | nil => simp [List.isPrefixOf]
  | cons c cs ih =>
    cases s with
    | nil => simp [List.isPrefixOf]
    | cons b bs =>
      simp only [List.isPrefixOf, Bool.and_eq_true, beq_iff_eq, ih,
        List.cons_append, List.cons.injEq]
      constructor
      · rintro ⟨h1, t, h2⟩
        exact ⟨t, h1, h2⟩
      · rintro ⟨t, h1, h2⟩
        exact ⟨h1, t, h2⟩

theorem hasSubstring_iff {s pat : Text} :
    hasSubstring s pat = true ↔ ∃ pre post, pre ++ pat ++ post = s := by
  induction s with
  | nil =>
    simp only [hasSubstring, List.isEmpty_iff]
    constructor
    · rintro rfl
      exact ⟨[], [], rfl⟩
    · rintro ⟨pre, post, h⟩
      rcases List.append_eq_nil.mp h with ⟨h1, h2⟩
      exact (List.append_eq_nil.mp h1).2
  | cons c cs ih =>
    simp only [hasSubstring, Bool.or_eq_true, isPrefixOf_iff_append, ih]
    constructor
    · rintro (⟨t, ht⟩ | ⟨pre, post, h⟩)
      · exact ⟨[], t, by simpa using ht⟩
      · exact ⟨c :: pre, post, by simp [h]⟩
    · rintro ⟨pre, post, h⟩
      cases pre with
      | nil =>
        left
        exact ⟨post, by simpa using h⟩
      | cons c' pre' =>
        right
        simp only [List.cons_append, List.cons.injEq] at h
        exact ⟨pre', post, h.2⟩

/-- An occurrence of `pat` in `a ++ x :: b` cannot cross the marker
character `x` when `x ∉ pat`: it lies wholly inside `a` or wholly inside
`b`. -/
theorem substring_split_at_marker {pat a b : Text} {x : Char} (hx : x ∉ pat) :
    (∃ pre post, pre ++ pat ++ post = a ++ x :: b) →
    (∃ pre post, pre ++ pat ++ post = a) ∨ (∃ pre post, pre ++ pat ++ post = b) := by
  rintro ⟨pre, post, h⟩
  have h' : (pre ++ pat) ++ post = a ++ x :: b := by
    simpa [List.append_assoc] using h
  rcases List.append_eq_append_iff.mp h' with ⟨w, hw1, hw2⟩ | ⟨w, hw1, hw2⟩
  · exact Or.inl ⟨pre, w, by rw [hw1, List.append_assoc]⟩
  · cases w with
    | nil =>
      simp only [List.append_nil] at hw1
      exact Or.inl ⟨pre, [], by simp [hw1]⟩
    | cons e w' =>
      simp only [List.cons_append, List.cons.injEq] at hw2
      obtain ⟨he, hb⟩ := hw2
      subst he
      rcases List.append_eq_append_iff.mp hw1 with ⟨u, hu1, hu2⟩ | ⟨u, hu1, hu2⟩
      · exact absurd (hu2 ▸ List.mem_append_right u (List.mem_cons_self x w')) hx
      · cases u with
        | nil =>
          simp only [List.nil_append] at hu2
          exact absurd (hu2 ▸ List.mem_cons_self x w') hx
        | cons f u' =>
          simp only [List.cons_append, List.cons.injEq] at hu2
          obtain ⟨hf, hw⟩ := hu2
          subst hf
          refine Or.inr ⟨u', post, ?_⟩
          simp [hb, hw, List.append_assoc]

/-- `openssh-server` does not occur in the echo line unless it occurs in
the key itself: an occurrence cannot cross the quote characters around the
key, and the literal parts do not contain it. -/
theorem no_openssh_in_echoKeyLine {k : Text}
    (hkno : hasSubstring k ("openssh-server".data) = false) :
    hasSubstring (echoKeyLine k) ("openssh-server".data) = false := by
  by_contra hcon
  have htrue : hasSubstring (echoKeyLine k) ("openssh-server".data) = true := by
    revert hcon
    cases hasSubstring (echoKeyLine k) ("openssh-server".data) <;> simp
  have hdecomp : echoKeyLine k =
      "RUN echo ".data ++ '\x27' :: (k ++ '\x27' ::
        " > /root/.ssh/authorized_keys && chmod 600 /root/.ssh/authorized_keys".data) := by
    rw [echoKeyLine]
    rfl
  rw [hdecomp] at htrue
  have hx : '\x27' ∉ ("openssh-server".data : Text) := by decide
  rcases substring_split_at_marker hx (hasSubstring_iff.mp htrue) with h1 | h1
  · have : hasSubstring ("RUN echo ".data : Text) ("openssh-server".data) = true :=
      hasSubstring_iff.mpr h1
    exact absurd this (by decide)
  · rcases substring_split_at_marker hx h1 with h2 | h2
    · exact absurd (hasSubstring_iff.mpr h2) (by simp [hkno])
    · have : hasSubstring
          (" > /root/.ssh/authorized_keys && chmod 600 /root/.ssh/authorized_keys".data : Text)
          ("openssh-server".data) = true := hasSubstring_iff.mpr h2
      exact absurd this (by decide)

/-! ## Claim C6: no duplicate SSH installation -/

/-- C6: for every user recipe already referencing SSH-server installation
(`openssh-server`) and every newline-free key not itself containing
`openssh-server`, `injectSshIntoDockerfile` appends exactly the trust
block and nothing else: the output is the input followed by the trust
block, whose lines are exactly one trust-directory creation line and one
public-key injection line (which embeds the supplied key); no appended
line references `openssh-server`, so the installation step is not
duplicated. -/
theorem c6_no_duplicate_install {d k : Text}
    (hd : hasSubstring d ("openssh-server".data) = true)
    (hk : '\n' ∉ k)
    (hkno : hasSubstring k ("openssh-server".data) = false) :
    injectSshIntoDockerfile d k = d ++ sshTrustBlock k ∧
    splitNl (sshTrustBlock k) = [[], trustMkdirLine, echoKeyLine k, []] ∧
    (∀ l ∈ splitNl (sshTrustBlock k),
      hasSubstring l ("openssh-server".data) = false) ∧
    (∃ pre post, pre ++ k ++ post = echoKeyLine k) := by
  refine ⟨?_, splitNl_sshTrustBlock hk, ?_, ?_⟩
  · rw [injectSshIntoDockerfile, if_pos (by simp [hd])]
  · intro l hl
    rw [splitNl_sshTrustBlock hk] at hl
    simp only [List.mem_cons, List.not_mem_nil, or_false] at hl
    rcases hl with h | h | h | h
    · subst h; decide
    · subst h; decide
    · subst h; exact no_openssh_in_echoKeyLine hkno
    · subst h; decide
  · exact ⟨"RUN echo \x27".data,
      "\x27 > /root/.ssh/authorized_keys && chmod 600 /root/.ssh/authorized_keys".data, rfl⟩

/-- C6 (witness): the theorem applied to a concrete recipe that already
installs `openssh-server`. -/
theorem c6_witness :
    injectSshIntoDockerfile "FROM debian\nRUN apt-get install -y openssh-server".data
        "ssh-rsa KEY60 c".data =
      "FROM debian\nRUN apt-get install -y openssh-server".data ++
        sshTrustBlock ("ssh-rsa KEY60 c".data) ∧
    splitNl (sshTrustBlock ("ssh-rsa KEY60 c".data)) =
      [[], trustMkdirLine, echoKeyLine ("ssh-rsa KEY60 c".data), []] ∧
    (∀ l ∈ splitNl (sshTrustBlock ("ssh-rsa KEY60 c".data)),
      hasSubstring l ("openssh-server".data) = false) ∧
    (∃ pre post, pre ++ "ssh-rsa KEY60 c".data ++ post =
      echoKeyLine ("ssh-rsa KEY60 c".data)) :=
  c6_no_duplicate_install (by decide) (by decide) (by decide)

/-! ## Claim C8: verbatim single-line key embedding -/

/-- C8 (counterexample): the claim states that key material with an
embedded newline makes synthesis fail with `InvalidKeyMaterial` instead of
producing a recipe.  The code has no such check: `injectSshIntoDockerfile`
still produces a recipe, embedding the newline-carrying key as-is, so the
key text spans lines and no single output line contains it. -/
theorem c8_counterexample :
    hasSubstring
      (injectSshIntoDockerfile "FROM ubuntu:24.04".data "ssh-rsa AAAA\nBBBB".data)
      ("ssh-rsa AAAA\nBBBB".data) = true ∧
    (splitNl (injectSshIntoDockerfile "FROM ubuntu:24.04".data
        "ssh-rsa AAAA\nBBBB".data)).all
      (fun l => !(hasSubstring l ("ssh-rsa AAAA\nBBBB".data))) = true := by
  constructor <;> decide

set_option maxRecDepth 10000 in
/-- C8 (amended): for every newline-free public key, both synthesis
functions embed the key text verbatim inside a single line of the output
recipe.  A key containing a newline is embedded without any failure — no
`InvalidKeyMaterial` error exists in the code — leaving the key spread
over several lines (see the counterexample). -/
theorem c8_key_single_line {img d k : Text} (hk : '\n' ∉ k) :
    (∃ l ∈ splitNl (createSshDockerfile img k), ∃ pre post, pre ++ k ++ post = l) ∧
    (∃ l ∈ splitNl (injectSshIntoDockerfile d k), ∃ pre post, pre ++ k ++ post = l) := by
  have eA : ("\n\nRUN apt-get update && apt-get install -y \\\n    openssh-server \\\n    sudo \\\n    curl \\\n    git \\\n    vim \\\n    && rm -rf /var/lib/apt/lists/* \\\n    && mkdir -p /var/run/sshd /root/.ssh \\\n    && chmod 700 /root/.ssh \\\n    && sed -i \x27s/#PermitRootLogin.*/PermitRootLogin prohibit-password/\x27 /etc/ssh/sshd_config \\\n    && sed -i \x27s/#PubkeyAuthentication.*/PubkeyAuthentication yes/\x27 /etc/ssh/sshd_config\n\nRUN echo \x27".data : Text) =
      "\n\nRUN apt-get update && apt-get install -y \\\n    openssh-server \\\n    sudo \\\n    curl \\\n    git \\\n    vim \\\n    && rm -rf /var/lib/apt/lists/* \\\n    && mkdir -p /var/run/sshd /root/.ssh \\\n    && chmod 700 /root/.ssh \\\n    && sed -i \x27s/#PermitRootLogin.*/PermitRootLogin prohibit-password/\x27 /etc/ssh/sshd_config \\\n    && sed -i \x27s/#PubkeyAuthentication.*/PubkeyAuthentication yes/\x27 /etc/ssh/sshd_config\n".data ++
        '\n' :: "RUN echo \x27".data := by decide
  have eB : ("\x27 > /root/.ssh/authorized_keys \\\n    && chmod 600 /root/.ssh/authorized_keys\n\nEXPOSE 22\nCMD [\"/usr/sbin/sshd\", \"-D\"]\n".data : Text) =
      "\x27 > /root/.ssh/authorized_keys \\".data ++
        '\n' :: "    && chmod 600 /root/.ssh/authorized_keys\n\nEXPOSE 22\nCMD [\"/usr/sbin/sshd\", \"-D\"]\n".data := by decide
  have hdecomp : createSshDockerfile img k =
      ("FROM ".data ++ img ++
        "\n\nRUN apt-get update && apt-get install -y \\\n    openssh-server \\\n    sudo \\\n    curl \\\n    git \\\n    vim \\\n    && rm -rf /var/lib/apt/lists/* \\\n    && mkdir -p /var/run/sshd /root/.ssh \\\n    && chmod 700 /root/.ssh \\\n    && sed -i \x27s/#PermitRootLogin.*/PermitRootLogin prohibit-password/\x27 /etc/ssh/sshd_config \\\n    && sed -i \x27s/#PubkeyAuthentication.*/PubkeyAuthentication yes/\x27 /etc/ssh/sshd_config\n".data) ++
        '\n' :: (("RUN echo \x27".data ++ k ++ "\x27 > /root/.ssh/authorized_keys \\".data) ++
          '\n' :: "    && chmod 600 /root/.ssh/authorized_keys\n\nEXPOSE 22\nCMD [\"/usr/sbin/sshd\", \"-D\"]\n".data) := by
    rw [createSshDockerfile, eA, eB]
    simp [List.append_assoc]
  have hline : '\n' ∉
      ("RUN echo \x27".data ++ k ++ "\x27 > /root/.ssh/authorized_keys \\".data : Text) := by
    simp only [List.append_assoc, List.mem_append, not_or]
    exact ⟨by decide, hk, by decide⟩
  constructor
  · refine ⟨"RUN echo \x27".data ++ k ++ "\x27 > /root/.ssh/authorized_keys \\".data, ?_,
      "RUN echo \x27".data, "\x27 > /root/.ssh/authorized_keys \\".data, rfl⟩
    rw [hdecomp, splitNl_append_newline, splitNl_line_cons hline]
    exact List.mem_append_right _ (List.mem_cons_self _ _)
  · by_cases hd : hasSubstring d ("openssh-server".data) = true
    · refine ⟨echoKeyLine k, ?_, "RUN echo \x27".data,
        "\x27 > /root/.ssh/authorized_keys && chmod 600 /root/.ssh/authorized_keys".data, rfl⟩
      rw [splitNl_inject_ssh hk hd]
      exact List.mem_append_right _ (by simp)
    · have hd' : hasSubstring d ("openssh-server".data) = false := by
        revert hd
        cases hasSubstring d ("openssh-server".data) <;> simp
      refine ⟨echoKeyLine k, ?_, "RUN echo \x27".data,
        "\x27 > /root/.ssh/authorized_keys && chmod 600 /root/.ssh/authorized_keys".data, rfl⟩
      rw [splitNl_inject_nossh hk hd']
      exact List.mem_append_right _ (by simp)

/-- C8 (witness): the amended theorem at a concrete base image, recipe
and newline-free key. -/
theorem c8_witness :
    (∃ l ∈ splitNl (createSshDockerfile "ubuntu:24.04".data "ssh-rsa KEY c".data),
      ∃ pre post, pre ++ "ssh-rsa KEY c".data ++ post = l) ∧
    (∃ l ∈ splitNl (injectSshIntoDockerfile "FROM alpine".data "ssh-rsa KEY c".data),
      ∃ pre post, pre ++ "ssh-rsa KEY c".data ++ post = l) :=
  c8_key_single_line (by decide)

/-! ## Port allocator lemmas -/

theorem scanSshPorts_some {u b : Nat → Bool} :
    ∀ (fuel start p : Nat), scanSshPorts u b start fuel = some p →
      start ≤ p ∧ p < start + fuel ∧ u p = false ∧ b p = true ∧
        ∀ q, start ≤ q → q < p → u q = true ∨ b q = false := by
  intro fuel
  induction fuel with
  | zero => intro start p h; simp [scanSshPorts] at h
  | succ fuel ih =>
    intro start p h
    rw [scanSshPorts] at h
    by_cases hu : u start = true
    · rw [if_pos hu] at h
      obtain ⟨h1, h2, h3, h4, h5⟩ := ih (start + 1) p h
      refine ⟨by omega, by omega, h3, h4, ?_⟩
      intro q hq1 hq2
      rcases Nat.eq_or_lt_of_le hq1 with heq | hlt
      · exact Or.inl (heq ▸ hu)
      · exact h5 q hlt hq2
    · rw [if_neg hu] at h
      have hu' : u start = false := by
        revert hu; cases u start <;> simp
      by_cases hb : b start = true
      · rw [if_pos hb] at h
        have hp : p = start := by
          injection h with h; exact h.symm
        subst hp
        exact ⟨Nat.le_refl p, by omega, hu', hb, fun q hq1 hq2 => absurd hq1 (by omega)⟩
      · rw [if_neg hb] at h
        have hb' : b start = false := by
          revert hb; cases b start <;> simp
        obtain ⟨h1, h2, h3, h4, h5⟩ := ih (start + 1) p h
        refine ⟨by omega, by omega, h3, h4, ?_⟩
        intro q hq1 hq2
        rcases Nat.eq_or_lt_of_le hq1 with heq | hlt
        · exact Or.inr (heq ▸ hb')
        · exact h5 q hlt hq2

theorem scanSshPorts_none {u b : Nat → Bool} :
    ∀ (fuel start : Nat), scanSshPorts u b start fuel = none ↔
      ∀ q, start ≤ q → q < start + fuel → u q = true ∨ b q = false := by
  intro fuel
  induction fuel with
  | zero =>
    intro start
    simp only [scanSshPorts]
    constructor
    · intro _ q hq1 hq2
      omega
    · intro _
      trivial
  | succ fuel ih =>
    intro start
    rw [scanSshPorts]
    by_cases hu : u start = true
    · rw [if_pos hu, ih]
      constructor
      · intro h q hq1 hq2
        rcases Nat.eq_or_lt_of_le hq1 with heq | hlt
        · exact Or.inl (heq ▸ hu)
        · exact h q hlt (by omega)
      · intro h q hq1 hq2
        exact h q (by omega) (by omega)
    · rw [if_neg hu]
      have hu' : u start = false := by
        revert hu; cases u start <;> simp
      by_cases hb : b start = true
      · rw [if_pos hb]
        constructor
        · intro h; exact absurd h (by simp)
        · intro h
          rcases h start (Nat.le_refl start) (by omega) with h' | h'
          · rw [hu'] at h'; exact absurd h' (by simp)
          · rw [hb] at h'; exact absurd h' (by simp)
      · rw [if_neg hb, ih]
        have hb' : b start = false := by
          revert hb; cases b start <;> simp
        constructor
        · intro h q hq1 hq2
          rcases Nat.eq_or_lt_of_le hq1 with heq | hlt
          · exact Or.inr (heq ▸ hb')
          · exact h q hlt (by omega)
        · intro h q hq1 hq2
          exact h q (by omega) (by omega)

/-! ## Claim C4: SSH port allocation -/

/-- C4: `findAvailableSshPort` scans the range `[2222, 2322)` in ascending
order and returns the first port that is both absent from the
engine-reported used-port set and bindable on loopback; in particular it
never returns a used port, and it returns `none` (`PortExhausted`) exactly
when every port of the range is used or unbindable. -/
theorem c4_findAvailableSshPort_spec (u b : Nat → Bool) :
    (∀ p, findAvailableSshPort u b = some p →
      2222 ≤ p ∧ p < 2322 ∧ u p = false ∧ b p = true ∧
        ∀ q, 2222 ≤ q → q < p → u q = true ∨ b q = false) ∧
    (findAvailableSshPort u b = none ↔
      ∀ q, 2222 ≤ q → q < 2322 → u q = true ∨ b q = false) := by
  constructor
  · intro p h
    have := scanSshPorts_some 100 2222 p h
    exact ⟨this.1, by omega, this.2.2.1, this.2.2.2.1, this.2.2.2.2⟩
  · rw [findAvailableSshPort, scanSshPorts_none]

/-- C4 (witness): with port 2222 engine-occupied and 2223 unbindable, the
allocator returns 2224, which satisfies the specification's conjuncts. -/
theorem c4_witness :
    2222 ≤ 2224 ∧ 2224 < 2322 ∧
      (fun q => decide (q = 2222)) 2224 = false ∧
      (fun q => !(decide (q = 2223))) 2224 = true ∧
      (∀ q, 2222 ≤ q → q < 2224 →
        (fun q => decide (q = 2222)) q = true ∨
        (fun q => !(decide (q = 2223))) q = false) :=
  (c4_findAvailableSshPort_spec (fun q => decide (q = 2222))
    (fun q => !(decide (q = 2223)))).1 2224 (by decide)

/-! ## Claim C5: sequential allocations do not collide -/

/-- C5: if a first call of `findAvailableSshPort` returned `p` and `p` is
still held at the time of a second call — i.e. the second call observes
`p` as engine-occupied or fails to bind it — then the second call cannot
return `p` again: the scan never returns an occupied or unbindable
port. -/
theorem c5_sequential_calls_distinct (u1 b1 u2 b2 : Nat → Bool) (p : Nat)
    (h1 : findAvailableSshPort u1 b1 = some p)
    (hheld : u2 p = true ∨ b2 p = false) :
    findAvailableSshPort u2 b2 ≠ some p := by
  intro h2
  have hspec := scanSshPorts_some 100 2222 p h2
  rcases hheld with h | h
  · rw [hspec.2.2.1] at h
    exact absurd h (by simp)
  · rw [hspec.2.2.2.1] at h
    exact absurd h (by simp)

/-- C5 (witness): a first call on a free range returns 2222; once 2222 is
held (engine-occupied), a second call cannot return it. -/
theorem c5_witness :
    findAvailableSshPort (fun q => decide (q = 2222)) (fun _ => true) ≠ some 2222 :=
  c5_sequential_calls_distinct (fun _ => false) (fun _ => true)
    (fun q => decide (q = 2222)) (fun _ => true) 2222 (by decide)
    (Or.inl (by decide))

/-! ## Key store lemmas -/

theorem find?_filter_of_imp {α : Type} (l : List α) (pr f : α → Bool)
    (h : ∀ x, pr x = true → f x = true) :
    (l.filter f).find? pr = l.find? pr := by
  induction l with
  | nil => rfl
  | cons a l ih =>
    by_cases hf : f a = true
    · rw [List.filter_cons_of_pos hf]
      by_cases hp : pr a = true
      · rw [List.find?_cons_of_pos _ hp, List.find?_cons_of_pos _ hp]
      · have hp' : pr a = false := by
          revert hp; cases pr a <;> simp
        rw [List.find?_cons_of_neg _ (by simp [hp']), List.find?_cons_of_neg _ (by simp [hp'])]
        exact ih
    · have hp' : pr a = false := by
        revert hf
        cases hpa : pr a
        · simp
        · intro hf; exact absurd (h a hpa) hf
      rw [List.filter_cons_of_neg (by simp_all), List.find?_cons_of_neg _ (by simp [hp'])]
      exact ih

theorem readF_writeF_self (fs : FileSystem) (p : String) (c : Text) :
    readF (writeF fs p c) p = some c := by
  simp [readF, writeF, List.find?_cons_of_pos]

theorem readF_removeF_ne (fs : FileSystem) (p q : String) (h : q ≠ p) :
    readF (removeF fs p) q = readF fs q := by
  simp only [readF, removeF]
  rw [find?_filter_of_imp]
  intro x hx
  simp only [beq_iff_eq] at hx
  rw [hx]
  simp only [bne_iff_ne, ne_eq]
  exact h

theorem readF_writeF_ne (fs : FileSystem) (p : String) (c : Text) (q : String)
    (h : q ≠ p) : readF (writeF fs p c) q = readF fs q := by
  have hpq : ((p, c).1 == q) = false := by
    simp only [beq_eq_false_iff_ne, ne_eq]
    exact fun hh => h hh.symm
  simp only [readF, writeF]
  rw [List.find?_cons_of_neg _ (by simp [hpq])]
  exact readF_removeF_ne fs p q h

theorem readF_removeF_self (fs : FileSystem) (p : String) :
    readF (removeF fs p) p = none := by
  have hfind : ((removeF fs p).find? (fun e => e.1 == p)) = none := by
    rw [List.find?_eq_none]
    intro x hx
    have hmem := List.of_mem_filter hx
    simp only [bne_iff_ne, ne_eq] at hmem
    simp [hmem]
  simp [readF, hfind]

theorem removeF_absent {fs : FileSystem} {p : String}
    (h : readF fs p = none) : removeF fs p = fs := by
  have hfind : fs.find? (fun e => e.1 == p) = none := by
    cases hf : fs.find? (fun e => e.1 == p) with
    | none => rfl
    | some x =>
      rw [readF, hf] at h
      simp at h
  rw [List.find?_eq_none] at hfind
  rw [removeF, List.filter_eq_self]
  intro x hx
  have hne := hfind x hx
  have hx' : (x.1 == p) = false := by
    revert hne; cases (x.1 == p) <;> simp
  simp [bne, hx']

theorem keyPath_ne_pubPath (name : String) :
    getPrivateKeyPath name ≠ pubKeyPath name := by
  intro h
  have hlen := congrArg String.length h
  have h4 : (".pub" : String).length = 4 := rfl
  rw [pubKeyPath, String.length_append, h4] at hlen
  omega

/-- Evaluation of `generateSshKeyPair`: both reads succeed and return the
material `ssh-keygen` just wrote; the `.pub` file is then deleted. -/
theorem generateSshKeyPair_eval (gen : KeygenOutput) (name : String) (fs : FileSystem) :
    generateSshKeyPair gen name fs =
      (removeF (keygenWrittenStore gen name fs) (pubKeyPath name),
       .ok (trimText gen.pub, gen.priv)) := by
  have hne := keyPath_ne_pubPath name
  have hpub : readF (keygenWrittenStore gen name fs) (pubKeyPath name) = some gen.pub :=
    readF_writeF_self _ _ _
  have hpriv : readF (keygenWrittenStore gen name fs) (getPrivateKeyPath name) =
      some gen.priv := by
    rw [keygenWrittenStore, readF_writeF_ne _ _ _ _ hne, readF_writeF_self]
  unfold generateSshKeyPair
  rw [hpriv, hpub]

theorem generateSshKeyPair_read (gen : KeygenOutput) (name : String) (fs : FileSystem) :
    readF (generateSshKeyPair gen name fs).1 (getPrivateKeyPath name) = some gen.priv := by
  have hne := keyPath_ne_pubPath name
  rw [generateSshKeyPair_eval]
  rw [readF_removeF_ne _ _ _ hne, keygenWrittenStore,
    readF_writeF_ne _ _ _ _ hne, readF_writeF_self]

/-! ## Claim C7: key manager lifecycle -/

/-- C7: for every name, after `generate(name)` succeeds `read(name)`
returns the private key material; after `cleanup(name)`, `read(name)`
fails with `KeyNotFound`; `cleanup(name)` is a no-op when the key file is
absent; and a second `generate(name)` destroys the first key: the store
then yields the new private key, and no longer the old one. -/
theorem c7_key_lifecycle (gen gen2 : KeygenOutput) (name : String) (fs : FileSystem)
    (hne : gen2.priv ≠ gen.priv) :
    (generateSshKeyPair gen name fs).2 = .ok (trimText gen.pub, gen.priv) ∧
    getPrivateKey (generateSshKeyPair gen name fs).1 name = .ok gen.priv ∧
    getPrivateKey (cleanupContainerKeys (generateSshKeyPair gen name fs).1 name) name =
      .error .keyNotFound ∧
    (readF fs (getPrivateKeyPath name) = none → cleanupContainerKeys fs name = fs) ∧
    getPrivateKey (generateSshKeyPair gen2 name (generateSshKeyPair gen name fs).1).1 name =
      .ok gen2.priv ∧
    getPrivateKey (generateSshKeyPair gen2 name (generateSshKeyPair gen name fs).1).1 name ≠
      .ok gen.priv := by
  refine ⟨?_, ?_, ?_, ?_, ?_, ?_⟩
  · rw [generateSshKeyPair_eval]
  · rw [getPrivateKey, generateSshKeyPair_read]
  · rw [getPrivateKey, cleanupContainerKeys, readF_removeF_self]
  · exact fun h => removeF_absent h
  · rw [getPrivateKey, generateSshKeyPair_read]
  · rw [getPrivateKey, generateSshKeyPair_read]
    simp only [ne_eq, Except.ok.injEq]
    exact hne

/-- C7 (witness): the lifecycle at a concrete name, empty store and two
distinct generated keys. -/
theorem c7_witness :
    (generateSshKeyPair ⟨"P1".data, " PUB1 ".data⟩ "dev1" []).2 =
      .ok (trimText " PUB1 ".data, "P1".data) ∧
    getPrivateKey (generateSshKeyPair ⟨"P1".data, " PUB1 ".data⟩ "dev1" []).1 "dev1" =
      .ok "P1".data ∧
    getPrivateKey (cleanupContainerKeys
      (generateSshKeyPair ⟨"P1".data, " PUB1 ".data⟩ "dev1" []).1 "dev1") "dev1" =
      .error .keyNotFound ∧
    (readF [] (getPrivateKeyPath "dev1") = none → cleanupContainerKeys [] "dev1" = []) ∧
    getPrivateKey (generateSshKeyPair ⟨"P2".data, "PUB2".data⟩ "dev1"
      (generateSshKeyPair ⟨"P1".data, " PUB1 ".data⟩ "dev1" []).1).1 "dev1" =
      .ok "P2".data ∧
    getPrivateKey (generateSshKeyPair ⟨"P2".data, "PUB2".data⟩ "dev1"
      (generateSshKeyPair ⟨"P1".data, " PUB1 ".data⟩ "dev1" []).1).1 "dev1" ≠
      .ok "P1".data :=
  c7_key_lifecycle ⟨"P1".data, " PUB1 ".data⟩ ⟨"P2".data, "PUB2".data⟩ "dev1" []
    (by decide)

/-! ## Claim C9: build resolves successfully only on clean termination -/

/-- C9: `buildImage` resolves successfully exactly when the engine reports
the build progress stream terminated without error; a stream-reported
error or a transport failure resolves to the failure carrying the
underlying message, so an engine-reported failure is never reported as
success. -/
theorem c9_build_success_iff (o : BuildEngineOutcome) :
    (buildImage o = .ok () ↔ o = .success) ∧
    (∀ msg, buildImage (.streamError msg) = .error msg) ∧
    (∀ msg, buildImage (.transportError msg) = .error msg) ∧
    (∀ msg, o = .streamError msg ∨ o = .transportError msg →
      buildImage o ≠ .ok ()) := by
  refine ⟨?_, fun msg => rfl, fun msg => rfl, ?_⟩
  · cases o <;> simp [buildImage]
  · rintro msg (rfl | rfl) <;> simp [buildImage]

/-- C9 (witness): a stream-reported failure resolves to the failure with
its message, not to success. -/
theorem c9_witness :
    (buildImage (.streamError "step 3 failed") = .ok () ↔
      BuildEngineOutcome.streamError "step 3 failed" = .success) ∧
    (∀ msg, buildImage (.streamError msg) = .error msg) ∧
    (∀ msg, buildImage (.transportError msg) = .error msg) ∧
    (∀ msg, BuildEngineOutcome.streamError "step 3 failed" = .streamError msg ∨
        BuildEngineOutcome.streamError "step 3 failed" = .transportError msg →
      buildImage (.streamError "step 3 failed") ≠ .ok ()) :=
  c9_build_success_iff (.streamError "step 3 failed")

/-! ## Pipeline lemmas -/

theorem pipelineAfterRecipe_head (env : PipelineEnv) (req : CreateContainerRequest)
    (recipe : Text) (pkp : String) :
    ∃ rest, (pipelineAfterRecipe env req recipe pkp).1 =
      .engineBuild recipe ("acm-" ++ req.name ++ ":latest") :: rest := by
  simp only [pipelineAfterRecipe]
  split
  · exact ⟨_, rfl⟩
  · split
    · exact ⟨_, rfl⟩
    · split
      · exact ⟨_, rfl⟩
      · split
        · exact ⟨_, rfl⟩
        · split
          · exact ⟨_, rfl⟩
          · exact ⟨_, rfl⟩

theorem pipelineAfterRecipe_kinds (env : PipelineEnv) (req : CreateContainerRequest)
    (recipe : Text) (pkp : String) :
    ∃ n, ((pipelineAfterRecipe env req recipe pkp).1.map PipeEvent.kind) =
      [PipeStepKind.build, .listContainers, .create, .start, .inspect].take n := by
  simp only [pipelineAfterRecipe]
  split
  · exact ⟨1, rfl⟩
  · split
    · exact ⟨2, rfl⟩
    · split
      · exact ⟨3, rfl⟩
      · split
        · exact ⟨4, rfl⟩
        · split
          · exact ⟨5, rfl⟩
          · exact ⟨5, rfl⟩

theorem pipelineAfterRecipe_no_invalid (env : PipelineEnv) (req : CreateContainerRequest)
    (recipe : Text) (pkp : String) :
    (pipelineAfterRecipe env req recipe pkp).2 ≠ .error .invalidRequest := by
  simp only [pipelineAfterRecipe]
  split
  · simp
  · split
    · simp
    · split
      · simp
      · split
        · simp
        · split
          · simp
          · simp

theorem pipelineAfterRecipe_name (env : PipelineEnv)
    (req req' : CreateContainerRequest) (h : req.name = req'.name)
    (recipe : Text) (pkp : String) :
    pipelineAfterRecipe env req recipe pkp = pipelineAfterRecipe env req' recipe pkp := by
  simp only [pipelineAfterRecipe, h]

/-! ## Claim C1: request validation -/

/-- C1 (counterexample): the claim states that a request containing both a
base image and a recipe text is rejected with `InvalidRequest`.  With both
fields present (and a cooperating engine) the pipeline instead provisions
successfully through the recipe branch. -/
theorem c1_counterexample :
    (buildAndCreateContainer
      { keygen := ⟨"PRIVKEY".data, "ssh-rsa AAAB3 agent".data⟩,
        buildOutcome := .success,
        usedPorts := fun _ => false, bindable := fun _ => true,
        createOutcome := .ok (), startOutcome := .ok (),
        inspectResult := some ⟨"abc123", "dev1", "acm-dev1:latest", some 2222⟩ }
      { name := "dev1", image := some ("ubuntu:24.04".data),
        dockerfile := some ("FROM ubuntu:24.04\nCMD [\"/bin/bash\"]".data) }).2 =
      .ok ⟨⟨"abc123", "dev1", "acm-dev1:latest", some 2222⟩, "data/ssh-keys/dev1.pem"⟩ := by
  rfl

/-- C1 (amended): `buildAndCreateContainer` fails with the
`'Either image or dockerfile must be provided'` error exactly when both
optional fields are absent (or empty) — on either the dockerfile branch
or the image branch the invalid-request error cannot occur; the failing
case performs only the key-generation step; and when a recipe text is
present the recipe branch is taken — the image is built from the
synthesized recipe, not rejected.  (Validation happens after key
generation, see C3.) -/
theorem c1_validation (env : PipelineEnv) (req : CreateContainerRequest) :
    ((buildAndCreateContainer env req).2 = .error .invalidRequest ↔
      optTruthy req.dockerfile = false ∧ optTruthy req.image = false) ∧
    (optTruthy req.dockerfile = false → optTruthy req.image = false →
      buildAndCreateContainer env req = ([.keyGen req.name], .error .invalidRequest)) ∧
    (optTruthy req.dockerfile = true →
      ∃ rest, (buildAndCreateContainer env req).1 =
        .keyGen req.name ::
          .engineBuild (injectSshIntoDockerfile (req.dockerfile.getD [])
            (trimText env.keygen.pub)) ("acm-" ++ req.name ++ ":latest") :: rest) := by
  refine ⟨?_, ?_, ?_⟩
  · by_cases hd : optTruthy req.dockerfile = true
    · rw [buildAndCreateContainer, if_pos (by simp [hd])]
      constructor
      · intro h
        exact absurd h (pipelineAfterRecipe_no_invalid env req _ _)
      · rintro ⟨h1, _⟩
        rw [hd] at h1
        exact absurd h1 (by simp)
    · by_cases hi : optTruthy req.image = true
      · rw [buildAndCreateContainer, if_neg hd, if_pos (by simp [hi])]
        constructor
        · intro h
          exact absurd h (pipelineAfterRecipe_no_invalid env req _ _)
        · rintro ⟨_, h2⟩
          rw [hi] at h2
          exact absurd h2 (by simp)
      · have hd' : optTruthy req.dockerfile = false := by
          revert hd; cases optTruthy req.dockerfile <;> simp
        have hi' : optTruthy req.image = false := by
          revert hi; cases optTruthy req.image <;> simp
        rw [buildAndCreateContainer, if_neg hd, if_neg hi]
        simp [hd', hi']
  · intro hd hi
    rw [buildAndCreateContainer, if_neg (by simp [hd]), if_neg (by simp [hi])]
  · intro hd
    obtain ⟨rest, hr⟩ := pipelineAfterRecipe_head env req
      (injectSshIntoDockerfile (req.dockerfile.getD []) (trimText env.keygen.pub))
      (getPrivateKeyPath req.name)
    refine ⟨rest, ?_⟩
    rw [buildAndCreateContainer, if_pos (by simp [hd]), withKeyGen, hr]

/-- C1 (witness): a request with neither field fails with the
invalid-request error after only the key-generation step. -/
theorem c1_witness :
    buildAndCreateContainer
      { keygen := ⟨"P".data, "K".data⟩, buildOutcome := .success,
        usedPorts := fun _ => false, bindable := fun _ => true,
        createOutcome := .ok (), startOutcome := .ok (), inspectResult := none }
      { name := "dev1" } = ([.keyGen "dev1"], .error .invalidRequest) :=
  (c1_validation _ _).2.1 rfl rfl

/-! ## Claim C3: step ordering within one attempt -/

/-- C3 (counterexample): the claim states that request validation
completes before key generation begins.  For a request with neither field,
validation fails — yet the attempt's trace contains the `ssh-keygen` step:
key generation ran first, before the validation branch. -/
theorem c3_counterexample :
    (buildAndCreateContainer
      { keygen := ⟨"PRIVKEY".data, "ssh-rsa AAAB3 agent".data⟩,
        buildOutcome := .success,
        usedPorts := fun _ => false, bindable := fun _ => true,
        createOutcome := .ok (), startOutcome := .ok (), inspectResult := none }
      { name := "dev1" }).2 = .error .invalidRequest ∧
    PipeEvent.keyGen "dev1" ∈
      (buildAndCreateContainer
        { keygen := ⟨"PRIVKEY".data, "ssh-rsa AAAB3 agent".data⟩,
          buildOutcome := .success,
          usedPorts := fun _ => false, bindable := fun _ => true,
          createOutcome := .ok (), startOutcome := .ok (), inspectResult := none }
        { name := "dev1" }).1 := by
  exact ⟨rfl, by decide⟩

/-- C3 (amended): key generation runs first; after it, the remaining
steps of one attempt execute strictly in the order key generation → image
build → engine port listing → container create → start → inspect (the
trace of kinds is always a prefix of `stepOrder`), and a request with
neither base image nor recipe text fails with `InvalidRequest` right after
key generation, before any container-engine call. -/
theorem c3_step_order (env : PipelineEnv) (req : CreateContainerRequest) :
    (∃ n, ((buildAndCreateContainer env req).1.map PipeEvent.kind) = stepOrder.take n) ∧
    (optTruthy req.dockerfile = false → optTruthy req.image = false →
      buildAndCreateContainer env req = ([.keyGen req.name], .error .invalidRequest) ∧
      ∀ e ∈ (buildAndCreateContainer env req).1, e.isEngineCall = false) := by
  have hstep : stepOrder = PipeStepKind.keyGen ::
      [PipeStepKind.build, .listContainers, .create, .start, .inspect] := rfl
  constructor
  · by_cases hd : optTruthy req.dockerfile = true
    · obtain ⟨n, hn⟩ := pipelineAfterRecipe_kinds env req
        (injectSshIntoDockerfile (req.dockerfile.getD []) (trimText env.keygen.pub))
        (getPrivateKeyPath req.name)
      refine ⟨n + 1, ?_⟩
      rw [buildAndCreateContainer, if_pos (by simp [hd]), withKeyGen, hstep,
        List.take_succ_cons, List.map_cons, hn]
      rfl
    · by_cases hi : optTruthy req.image = true
      · obtain ⟨n, hn⟩ := pipelineAfterRecipe_kinds env req
          (createSshDockerfile (req.image.getD []) (trimText env.keygen.pub))
          (getPrivateKeyPath req.name)
        refine ⟨n + 1, ?_⟩
        rw [buildAndCreateContainer, if_neg hd, if_pos (by simp [hi]), withKeyGen, hstep,
          List.take_succ_cons, List.map_cons, hn]
        rfl
      · refine ⟨1, ?_⟩
        rw [buildAndCreateContainer, if_neg hd, if_neg hi]
        rfl
  · intro hd hi
    have hres : buildAndCreateContainer env req =
        ([.keyGen req.name], .error .invalidRequest) := by
      rw [buildAndCreateContainer, if_neg (by simp [hd]), if_neg (by simp [hi])]
    refine ⟨hres, ?_⟩
    intro e he
    rw [hres] at he
    simp only [List.mem_singleton] at he
    subst he
    rfl

/-- C3 (witness): the amended theorem's invalid-request part at a concrete
request with neither field. -/
theorem c3_witness :
    buildAndCreateContainer
      { keygen := ⟨"P2".data, "K2".data⟩, buildOutcome := .success,
        usedPorts := fun _ => false, bindable := fun _ => true,
        createOutcome := .ok (), startOutcome := .ok (), inspectResult := none }
      { name := "dev2" } = ([.keyGen "dev2"], .error .invalidRequest) ∧
    ∀ e ∈ (buildAndCreateContainer
      { keygen := ⟨"P2".data, "K2".data⟩, buildOutcome := .success,
        usedPorts := fun _ => false, bindable := fun _ => true,
        createOutcome := .ok (), startOutcome := .ok (), inspectResult := none }
      { name := "dev2" }).1, e.isEngineCall = false :=
  (c3_step_order _ _).2 rfl rfl

/-! ## Claim C10: recipe branch precedence when both fields are present -/

/-- C10: for every request supplying a non-empty recipe text, the pipeline
behaves exactly as if the base-image field were absent — the image field
is silently ignored — the recipe branch is taken (the build event carries
the recipe synthesized from the supplied dockerfile text), and the attempt
is never rejected with the invalid-request error. -/
theorem c10_dockerfile_precedence (env : PipelineEnv) (req : CreateContainerRequest)
    (d : Text) (hd : req.dockerfile = some d) (hne : d.isEmpty = false) :
    buildAndCreateContainer env req =
      buildAndCreateContainer env { req with image := none } ∧
    (∃ rest, (buildAndCreateContainer env req).1 =
      .keyGen req.name ::
        .engineBuild (injectSshIntoDockerfile d (trimText env.keygen.pub))
          ("acm-" ++ req.name ++ ":latest") :: rest) ∧
    (buildAndCreateContainer env req).2 ≠ .error .invalidRequest := by
  have htruthy : optTruthy req.dockerfile = true := by
    rw [hd]
    simp [optTruthy, hne]
  refine ⟨?_, ?_, ?_⟩
  · rw [buildAndCreateContainer, buildAndCreateContainer,
      if_pos (by simp [htruthy]), if_pos (by simpa using htruthy)]
    exact congrArg (withKeyGen req.name)
      (pipelineAfterRecipe_name env req { req with image := none } rfl _ _)
  · obtain ⟨rest, hr⟩ := pipelineAfterRecipe_head env req
      (injectSshIntoDockerfile (req.dockerfile.getD []) (trimText env.keygen.pub))
      (getPrivateKeyPath req.name)
    refine ⟨rest, ?_⟩
    rw [buildAndCreateContainer, if_pos (by simp [htruthy]), withKeyGen, hr, hd]
    rfl
  · rw [buildAndCreateContainer, if_pos (by simp [htruthy]), withKeyGen]
    exact pipelineAfterRecipe_no_invalid env req _ _

/-- C10 (witness): a request with both a base image and a recipe text is
provisioned exactly as the same request without the base image. -/
theorem c10_witness :
    buildAndCreateContainer
      { keygen := ⟨"P3".data, "K3".data⟩, buildOutcome := .success,
        usedPorts := fun _ => false, bindable := fun _ => true,
        createOutcome := .ok (), startOutcome := .ok (), inspectResult := none }
      { name := "dev3", image := some ("ubuntu:24.04".data),
        dockerfile := some ("FROM alpine".data) } =
      buildAndCreateContainer
        { keygen := ⟨"P3".data, "K3".data⟩, buildOutcome := .success,
          usedPorts := fun _ => false, bindable := fun _ => true,
          createOutcome := .ok (), startOutcome := .ok (), inspectResult := none }
        { name := "dev3", image := none, dockerfile := some ("FROM alpine".data) } ∧
    (∃ rest, (buildAndCreateContainer
      { keygen := ⟨"P3".data, "K3".data⟩, buildOutcome := .success,
        usedPorts := fun _ => false, bindable := fun _ => true,
        createOutcome := .ok (), startOutcome := .ok (), inspectResult := none }
      { name := "dev3", image := some ("ubuntu:24.04".data),
        dockerfile := some ("FROM alpine".data) }).1 =
      .keyGen "dev3" ::
        .engineBuild (injectSshIntoDockerfile ("FROM alpine".data)
          (trimText ("K3".data))) ("acm-" ++ "dev3" ++ ":latest") :: rest) ∧
    (buildAndCreateContainer
      { keygen := ⟨"P3".data, "K3".data⟩, buildOutcome := .success,
        usedPorts := fun _ => false, bindable := fun _ => true,
        createOutcome := .ok (), startOutcome := .ok (), inspectResult := none }
      { name := "dev3", image := some ("ubuntu:24.04".data),
        dockerfile := some ("FROM alpine".data) }).2 ≠ .error .invalidRequest :=
  c10_dockerfile_precedence _ _ ("FROM alpine".data) rfl rfl

example : ("ab\ncd".data) = ['a', 'b', '\n', 'c', 'd'] := rfl

example : splitNl ("ab\ncd".data) = ["ab".data, "cd".data] := by decide

example : hasSubstring "hello openssh-server world".data "openssh-server".data = true := by
  decide

end AgentContainers
